import Mathlib

/-!
Shallow embedding of the FPL-Gen-Bot repository (Python) in Lean 4.

The embedding covers:
* `src/services/fpl_api.py` — the retry/backoff loop of
  `FPLAPI._make_request_with_retry`, the authentication state machine of
  `FPLAPI._authenticate`, and the pure fixture lookup
  `FPLAPI.get_fixture_difficulty`;
* `src/services/ml_predictor.py` — `MLPredictor.predict_performance`,
  over a small model of Python float values (finite / nan / ±inf) so that
  the non-finite branches of the code are represented faithfully;
* the Transfer Decision Engine functions exercised by
  `src/tests/test_transfer_engine.py`; the module
  `src/services/transfer_engine.py` itself is not part of the repository
  snapshot, so those definitions are modelled from the spec, as marked in
  their doc comments.

Network I/O is modelled by an environment `resp : Nat → HttpResp` giving the
outcome of the i-th HTTP send of a logical request; blocking sleeps are
recorded as a list of waited durations.
-/

namespace FPLGenBot

/-! ## Python float values

`MLPredictor.predict_performance` manipulates Python floats that can be NaN
or infinite (the code explicitly guards with `np.isnan` / `np.isfinite`, and
`max(0, x)` is NaN-sensitive: Python's `max(0, x)` keeps `0` unless `x > 0`
evaluates to true, so `max(0, nan) = 0`). We model such values exactly. -/

inductive PyFloat where
  | fin (q : ℚ)
  | nan
  | inf
  | ninf
deriving DecidableEq, Repr

/-- `np.isfinite` on a single value. -/
def PyFloat.isFinite : PyFloat → Bool
  | .fin _ => true
  | _ => false

/-- Python truthiness of a numeric value (`0` and `0.0` are falsy; `nan`,
`inf` and every nonzero number are truthy). -/
def PyFloat.truthy : PyFloat → Bool
  | .fin q => decide (q ≠ 0)
  | _ => true

/-- Python comparison `x > 0`: false for NaN (all comparisons with NaN are
false), true for `+inf`, false for `-inf`. -/
def PyFloat.gtZero : PyFloat → Bool
  | .fin q => decide (0 < q)
  | .nan => false
  | .inf => true
  | .ninf => false

/-- Python `max(0, x)`: the running maximum starts at `0` and is replaced by
`x` only when `x > 0` is true; in particular `max(0, nan) = 0`. -/
def pymax0 (x : PyFloat) : PyFloat :=
  if x.gtZero then x else .fin 0

/-- Python `x or y` on numeric values. -/
def pyOr (x y : PyFloat) : PyFloat :=
  if x.truthy then x else y

/-- Multiplication of a Python float by a positive rational literal (used
for `form * 1.2`): NaN and infinities propagate. -/
def PyFloat.mulPos : PyFloat → ℚ → PyFloat
  | .fin q, c => .fin (q * c)
  | .nan, _ => .nan
  | .inf, _ => .inf
  | .ninf, _ => .ninf

/-- The value is a legitimate non-negative prediction: a finite number ≥ 0,
or `+inf` (which compares ≥ 0); NaN and `-inf` are not. -/
def PyFloat.nonneg : PyFloat → Prop
  | .fin q => 0 ≤ q
  | .inf => True
  | .nan => False
  | .ninf => False

/-! ## MLPredictor.predict_performance (src/services/ml_predictor.py, lines 107-144)

The stats dictionary is a partial map from keys to Python floats;
`player_stats.get(k, d)` is `dictGet stats k d`.  The trained scikit-learn
model is an oracle `model : List PyFloat → Except Unit PyFloat`: `.error`
represents `model.predict` raising, `.ok v` the (possibly non-finite) head
of the returned array. -/

def dictGet (stats : String → Option PyFloat) (k : String) (d : PyFloat) : PyFloat :=
  (stats k).getD d

/-- The 15-entry feature vector built inside `predict_performance`
(`np.array([[...]])`), with the code's `or`-defaults. -/
def predictFeatures (stats : String → Option PyFloat) (opponent_difficulty : PyFloat) :
    List PyFloat :=
  [ pyOr opponent_difficulty (.fin 3),
    pyOr (dictGet stats "minutes" (.fin 0)) (.fin 0),
    pyOr (dictGet stats "goals_scored" (.fin 0)) (.fin 0),
    pyOr (dictGet stats "assists" (.fin 0)) (.fin 0),
    (if (pyOr (dictGet stats "clean_sheets" (.fin 0)) (.fin 0)).gtZero then .fin 1 else .fin 0),
    pyOr (dictGet stats "yellow_cards" (.fin 0)) (.fin 0),
    pyOr (dictGet stats "red_cards" (.fin 0)) (.fin 0),
    pyOr (dictGet stats "saves" (.fin 0)) (.fin 0),
    pyOr (dictGet stats "bonus" (.fin 0)) (.fin 0),
    pyOr (dictGet stats "bps" (.fin 0)) (.fin 0),
    pyOr (dictGet stats "form" (.fin 0)) (.fin 0),
    pyOr (dictGet stats "points_per_game" (.fin 0)) (.fin 0),
    pyOr (dictGet stats "selected_by_percent" (.fin 0)) (.fin 0),
    pyOr (dictGet stats "transfers_in" (.fin 0)) (.fin 0),
    pyOr (dictGet stats "transfers_out" (.fin 0)) (.fin 0) ]

/-- `MLPredictor.predict_performance`.  Untrained: fallback
`max(0, player_stats.get('form', 0) * 1.2)`.  Trained: build the feature
vector; if any entry is NaN or non-finite, fallback `max(0, form)`; if the
model raises, fallback `max(0, form)`; otherwise `max(0, prediction)`. -/
def predict_performance (is_trained : Bool) (model : List PyFloat → Except Unit PyFloat)
    (stats : String → Option PyFloat) (opponent_difficulty : PyFloat) : PyFloat :=
  if is_trained = false then
    pymax0 ((dictGet stats "form" (.fin 0)).mulPos (12 / 10))
  else
    let features := predictFeatures stats opponent_difficulty
    if features.any (fun f => f.isFinite = false) then
      pymax0 (dictGet stats "form" (.fin 0))
    else
      match model features with
      | .ok p => pymax0 p
      | .error _ => pymax0 (dictGet stats "form" (.fin 0))

/-! ## FPLAPI.get_fixture_difficulty (src/services/fpl_api.py, lines 238-255) -/

/-- One entry of the `/fixtures/` JSON document; every field is optional
(`fixture.get(...)` in the code). -/
structure Fixture where
  event : Option Int
  team_h : Option Int
  team_a : Option Int
  team_h_difficulty : Option Int
  team_a_difficulty : Option Int
deriving DecidableEq, Repr

/-- The `for fixture in fixtures` loop body of `get_fixture_difficulty`:
return the first matching side-difficulty, else fall through. -/
def fixtureScan (team_id gameweek : Int) : List Fixture → Int
  | [] => 3
  | f :: rest =>
    if f.event = some gameweek then
      if f.team_h = some team_id then f.team_h_difficulty.getD 3
      else if f.team_a = some team_id then f.team_a_difficulty.getD 3
      else fixtureScan team_id gameweek rest
    else fixtureScan team_id gameweek rest

/-- `FPLAPI.get_fixture_difficulty`: `fixtures` is the result of
`get_fixtures()` (`none` when the fetch failed; `if not fixtures` also
catches the empty list, which `fixtureScan` already sends to 3). -/
def get_fixture_difficulty (fixtures : Option (List Fixture)) (team_id gameweek : Int) : Int :=
  match fixtures with
  | none => 3
  | some fs => fixtureScan team_id gameweek fs

/-- A fixture row that `get_fixture_difficulty` stops at: right gameweek and
the team on one of the two sides. -/
def fixtureMatches (team_id gameweek : Int) (f : Fixture) : Bool :=
  f.event = some gameweek && (f.team_h = some team_id || f.team_a = some team_id)

/-! ## Transfer Decision Engine (src/services/transfer_engine.py)

The module itself is absent from the repository snapshot (only
`src/tests/test_transfer_engine.py` is present), so the following
definitions are modelled from the spec, as their doc comments state. -/

/-- Player availability inputs: the optional `status` code string and the
optional `chance_of_playing_next_round` percentage (absent or `None` in the
JSON both become `none`). -/
structure PlayerStatus where
  status : Option String
  chance_of_playing_next_round : Option Int
deriving DecidableEq, Repr

/-- Modelled from the spec: `TransferEngine.is_player_available`
(`src/services/transfer_engine.py` is missing from the snapshot; only its
tests are present).  A player is eligible iff the status code is not in
{i, s, u} and the chance-of-playing-next-round is absent or ≥ 75; a missing
status defaults to available ("a"). -/
def is_player_available (p : PlayerStatus) : Bool :=
  (decide ((p.status.getD "a") ∉ (["i", "s", "u"] : List String))) &&
    (match p.chance_of_playing_next_round with
     | none => true
     | some c => decide (75 ≤ c))

/-- Modelled from the spec: `TransferEngine.calculate_player_value`
(`src/services/transfer_engine.py` is missing from the snapshot).
`value = expected_points / (price / 10)`, and a price of zero yields 0
instead of a division fault. -/
def calculate_player_value (price expected_points : ℚ) : ℚ :=
  if price = 0 then 0 else expected_points / (price / 10)

/-- Modelled from the spec: the difficulty multiplier table of
`TransferEngine.calculate_expected_points` (the module is missing from the
snapshot): 1→1.4, 2→1.3, 3→1.2, 4→1.0, 5→0.8; the value outside 1–5 is an
implementation choice, taken here to be 1. -/
def difficulty_multiplier (d : Int) : ℚ :=
  if d = 1 then 14 / 10
  else if d = 2 then 13 / 10
  else if d = 3 then 12 / 10
  else if d = 4 then 1
  else if d = 5 then 8 / 10
  else 1

/-- Average of the most recent 3 recorded total-points values of the history
(0 when the history is empty).  The history list is in chronological order,
so the most recent entries are at the end. -/
def recent_average (history : List ℚ) : ℚ :=
  let recent := (history.reverse.take 3)
  if recent = [] then 0 else recent.sum / recent.length

/-- Modelled from the spec: `TransferEngine.calculate_expected_points`
(`src/services/transfer_engine.py` is missing from the snapshot).
`predictor = some v` is a trained Performance Predictor reporting the finite
value `v`; `predictor = none` covers both the untrained predictor and a
non-finite prediction, in which case the fallback is the average of the most
recent 3 total-points history entries times the difficulty multiplier. -/
def calculate_expected_points (predictor : Option ℚ) (history : List ℚ) (difficulty : Int) : ℚ :=
  match predictor with
  | some v => v
  | none => recent_average history * difficulty_multiplier difficulty

/-! ## Configuration and the authentication state machine
(src/config/settings.py and FPLAPI._authenticate, src/services/fpl_api.py lines 109-150) -/

/-- The credential-bearing part of `config/settings.py`: all four values
come from `os.getenv` and may be absent. -/
structure Config where
  session_id : Option String
  csrf_token : Option String
  fpl_username : Option String
  fpl_password : Option String
deriving DecidableEq, Repr

/-- Python truthiness of an optional environment string (`None` and the
empty string are falsy). -/
def truthyStr (o : Option String) : Bool :=
  decide (o.getD "" ≠ "")

/-- The guard `if SESSION_ID and CSRF_TOKEN` of `_authenticate`. -/
def hasSessionCreds (cfg : Config) : Bool :=
  truthyStr cfg.session_id && truthyStr cfg.csrf_token

/-- The guard `elif FPL_USERNAME and FPL_PASSWORD` of `_authenticate`. -/
def hasUserCreds (cfg : Config) : Bool :=
  truthyStr cfg.fpl_username && truthyStr cfg.fpl_password

/-- `_authenticate` succeeds iff one of the two credential pairs is
configured. -/
def authSucceeds (cfg : Config) : Bool :=
  hasSessionCreds cfg || hasUserCreds cfg

/-- The `authenticated_session` `aiohttp.ClientSession`: the headers it was
created with and whether it is still open (`close()` flips `isOpen` but the
Python attribute keeps pointing at the closed object). -/
structure AuthSession where
  cookie : Option String
  xCsrfToken : Option String
  referer : Option String
  isOpen : Bool
deriving DecidableEq, Repr

/-- Outcome of one `_authenticate()` call: the returned boolean, the new
value of `self.authenticated_session`, and whether a previously existing
authenticated session was closed first. -/
structure AuthResult where
  ok : Bool
  auth : Option AuthSession
  closedOld : Bool
deriving DecidableEq, Repr

/-- The session-authenticated `ClientSession` built when session-id and CSRF
token are configured: cookie, `X-CSRFToken` and `Referer` headers attached. -/
def sessionAuthSession (cfg : Config) : AuthSession :=
  { cookie := some ("sessionid=" ++ cfg.session_id.getD "" ++ "; csrftoken=" ++ cfg.csrf_token.getD "")
    xCsrfToken := some (cfg.csrf_token.getD "")
    referer := some "https://fantasy.premierleague.com/"
    isOpen := true }

/-- The credential-authenticated `ClientSession` built on the
username/password branch (the full login handshake is out of scope, so no
auth headers are attached). -/
def credAuthSession : AuthSession :=
  { cookie := none, xCsrfToken := none, referer := none, isOpen := true }

/-- `FPLAPI._authenticate`: close any existing authenticated session, then
prefer session-based auth, fall back to username/password, and report
failure (leaving the closed old session in the attribute) when neither pair
is configured. -/
def authenticate (cfg : Config) (cur : Option AuthSession) : AuthResult :=
  let closedOld := cur.isSome
  let curClosed := cur.map (fun s => { s with isOpen := false })
  if hasSessionCreds cfg then
    { ok := true, auth := some (sessionAuthSession cfg), closedOld := closedOld }
  else if hasUserCreds cfg then
    { ok := true, auth := some credAuthSession, closedOld := closedOld }
  else
    { ok := false, auth := curClosed, closedOld := closedOld }

/-- Whether the client currently holds an open authenticated session. -/
def isAuthOpen : Option AuthSession → Bool
  | none => false
  | some s => s.isOpen

/-! ## FPLAPI._make_request_with_retry (src/services/fpl_api.py, lines 33-107)

One HTTP send either yields a status code with a (parsed-JSON) body, or
raises `asyncio.TimeoutError`, or raises some other transport exception.
The environment `resp : Nat → HttpResp` gives the outcome of the i-th send
issued by the logical request. -/

inductive HttpResp where
  | status (code : Nat) (body : Nat)
  | timeout
  | exc
deriving DecidableEq, Repr

inductive Method where
  | get
  | post
  | other
deriving DecidableEq, Repr

/-- Observable outcome of `_make_request_with_retry`: the returned value
(`none` is the failure indicator), the number of `for`-loop iterations
entered (attempt slots consumed), the number of HTTP sends issued, the
`asyncio.sleep` durations in order, and the number of `_authenticate`
calls. -/
structure RunOut where
  result : Option Nat
  attempts : Nat
  sends : Nat
  waits : List Nat
  reauths : Nat
deriving DecidableEq, Repr

/-- The `for attempt in range(max_retries)` loop for a GET request.
`r` counts the iterations still available including the current one, so the
Python guard `attempt < max_retries - 1` is `r ≠ 1`, here written as the
`r = 0` test after peeling one iteration; `idx` indexes the next send;
`delay` is `retry_delay`.  A 429 sleeps `2 * delay`, doubles the delay and
`continue`s — which in Python advances `attempt`, so it consumes an
iteration exactly like the generic-error branch. -/
def getLoop (resp : Nat → HttpResp) : Nat → Nat → Nat → RunOut
  | 0, _, _ => ⟨none, 0, 0, [], 0⟩
  | r + 1, idx, delay =>
    match resp idx with
    | .status code body =>
      if code = 200 then ⟨some body, 1, 1, [], 0⟩
      else if code = 429 then
        let rest := getLoop resp r (idx + 1) (delay * 2)
        ⟨rest.result, rest.attempts + 1, rest.sends + 1, delay * 2 :: rest.waits, rest.reauths⟩
      else if r = 0 then ⟨none, 1, 1, [], 0⟩
      else
        let rest := getLoop resp r (idx + 1) (delay * 2)
        ⟨rest.result, rest.attempts + 1, rest.sends + 1, delay :: rest.waits, rest.reauths⟩
    | .timeout =>
      if r = 0 then ⟨none, 1, 1, [], 0⟩
      else
        let rest := getLoop resp r (idx + 1) (delay * 2)
        ⟨rest.result, rest.attempts + 1, rest.sends + 1, delay :: rest.waits, rest.reauths⟩
    | .exc =>
      if r = 0 then ⟨none, 1, 1, [], 0⟩
      else
        let rest := getLoop resp r (idx + 1) (delay * 2)
        ⟨rest.result, rest.attempts + 1, rest.sends + 1, delay :: rest.waits, rest.reauths⟩

/-- The same loop for a POST request, additionally threading
`self.authenticated_session`.  A 401 triggers `_authenticate()`; on success
(and a non-`None` authenticated session, which success guarantees) the
request is re-sent once on the new session: a 200 returns its body, any
other status returns `None`; a timeout or transport exception during that
re-send is caught by the enclosing `except` handlers and consumes the
attempt slot like any other fault.  On authentication failure the function
returns `None` immediately. -/
def postLoop (cfg : Config) (resp : Nat → HttpResp) :
    Nat → Nat → Nat → Option AuthSession → RunOut × Option AuthSession
  | 0, _, _, auth => (⟨none, 0, 0, [], 0⟩, auth)
  | r + 1, idx, delay, auth =>
    match resp idx with
    | .status code body =>
      if code = 200 then (⟨some body, 1, 1, [], 0⟩, auth)
      else if code = 401 then
        let ar := authenticate cfg auth
        if ar.ok && ar.auth.isSome then
          match resp (idx + 1) with
          | .status code2 body2 =>
            if code2 = 200 then (⟨some body2, 1, 2, [], 1⟩, ar.auth)
            else (⟨none, 1, 2, [], 1⟩, ar.auth)
          | .timeout =>
            if r = 0 then (⟨none, 1, 2, [], 1⟩, ar.auth)
            else
              let rest := postLoop cfg resp r (idx + 2) (delay * 2) ar.auth
              (⟨rest.1.result, rest.1.attempts + 1, rest.1.sends + 2,
                delay :: rest.1.waits, rest.1.reauths + 1⟩, rest.2)
          | .exc =>
            if r = 0 then (⟨none, 1, 2, [], 1⟩, ar.auth)
            else
              let rest := postLoop cfg resp r (idx + 2) (delay * 2) ar.auth
              (⟨rest.1.result, rest.1.attempts + 1, rest.1.sends + 2,
                delay :: rest.1.waits, rest.1.reauths + 1⟩, rest.2)
        else (⟨none, 1, 1, [], 1⟩, ar.auth)
      else if code = 429 then
        let rest := postLoop cfg resp r (idx + 1) (delay * 2) auth
        (⟨rest.1.result, rest.1.attempts + 1, rest.1.sends + 1,
          delay * 2 :: rest.1.waits, rest.1.reauths⟩, rest.2)
      else if r = 0 then (⟨none, 1, 1, [], 0⟩, auth)
      else
        let rest := postLoop cfg resp r (idx + 1) (delay * 2) auth
        (⟨rest.1.result, rest.1.attempts + 1, rest.1.sends + 1,
          delay :: rest.1.waits, rest.1.reauths⟩, rest.2)
    | .timeout =>
      if r = 0 then (⟨none, 1, 1, [], 0⟩, auth)
      else
        let rest := postLoop cfg resp r (idx + 1) (delay * 2) auth
        (⟨rest.1.result, rest.1.attempts + 1, rest.1.sends + 1,
          delay :: rest.1.waits, rest.1.reauths⟩, rest.2)
    | .exc =>
      if r = 0 then (⟨none, 1, 1, [], 0⟩, auth)
      else
        let rest := postLoop cfg resp r (idx + 1) (delay * 2) auth
        (⟨rest.1.result, rest.1.attempts + 1, rest.1.sends + 1,
          delay :: rest.1.waits, rest.1.reauths⟩, rest.2)

/-- `FPLAPI._make_request_with_retry`: `max_retries = 3`, `retry_delay = 1`;
without an active base session the function returns `None` before the loop;
an unsupported method returns `None` in the first iteration. -/
def make_request_with_retry (cfg : Config) (hasSession : Bool) (auth : Option AuthSession)
    (method : Method) (resp : Nat → HttpResp) : RunOut × Option AuthSession :=
  if hasSession = false then (⟨none, 0, 0, [], 0⟩, auth)
  else
    match method with
    | .get => (getLoop resp 3 0 1, auth)
    | .post => postLoop cfg resp 3 0 1 auth
    | .other => (⟨none, 1, 0, [], 0⟩, auth)

/-- GET faults that take the generic retry branch: any status other than
200 and 429, a timeout, or a transport exception. -/
def isFaultGET : HttpResp → Prop
  | .status c _ => c ≠ 200 ∧ c ≠ 429
  | .timeout => True
  | .exc => True

/-- POST faults that take the generic retry branch: any status other than
200, 401 and 429, a timeout, or a transport exception. -/
def isFaultPOST : HttpResp → Prop
  | .status c _ => c ≠ 200 ∧ c ≠ 401 ∧ c ≠ 429
  | .timeout => True
  | .exc => True

/-- A record-store operation observed by the tests (mock `db.add` /
`db.commit` / `db.rollback`). -/
inductive DbOp where
  | add
  | commit
  | rollback
deriving DecidableEq, Repr

/-- Modelled from the spec: `TransferEngine.record_transfer`
(`src/services/transfer_engine.py` is missing from the snapshot).  The two
flags say whether the store faults during `add` resp. `commit`.  The result
is the list of store operations that completed, paired with `true` because
the function always returns normally (a persistence fault is rolled back
and logged, never propagated). -/
def record_transfer (addFails commitFails : Bool) : List DbOp × Bool :=
  if addFails then ([.rollback], true)
  else if commitFails then ([.add, .rollback], true)
  else ([.add, .commit], true)

/-! ## Shared concrete inputs and helper lemmas -/

/-- A configuration with no credentials at all. -/
def cfgNone : Config := ⟨none, none, none, none⟩

/-- A configuration with session credentials only. -/
def cfgSession : Config := ⟨some "sid", some "tok", none, none⟩

/-- A configuration with traditional credentials only. -/
def cfgUser : Config := ⟨none, none, some "user", some "pw"⟩

/-- A configuration with both credential pairs. -/
def cfgBoth : Config := ⟨some "sid", some "tok", some "user", some "pw"⟩

/-- A server that answers 429 to every send. -/
def resp429 : Nat → HttpResp := fun _ => .status 429 0

/-- A server that times out on every send. -/
def respTimeout : Nat → HttpResp := fun _ => .timeout

/-- A server that answers 401 to the first send and 200 (body 7) afterwards. -/
def resp401then200 : Nat → HttpResp := fun i => if i = 0 then .status 401 0 else .status 200 7

/-- The fixture list of `test_get_fixture_difficulty` in
`src/tests/test_fpl_api.py`. -/
def testFixtures : List Fixture :=
  [⟨some 1, some 1, some 2, some 2, some 4⟩, ⟨some 1, some 3, some 4, some 3, some 3⟩]

lemma pymax0_nonneg (x : PyFloat) : (pymax0 x).nonneg := by
  cases x with
  | fin q =>
    by_cases hq : 0 < q
    · simp [pymax0, PyFloat.gtZero, hq, PyFloat.nonneg, le_of_lt hq]
    · simp [pymax0, PyFloat.gtZero, hq, PyFloat.nonneg]
  | nan => simp [pymax0, PyFloat.gtZero, PyFloat.nonneg]
  | inf => simp [pymax0, PyFloat.gtZero, PyFloat.nonneg]
  | ninf => simp [pymax0, PyFloat.gtZero, PyFloat.nonneg]

lemma authenticate_ok (cfg : Config) (cur : Option AuthSession) :
    (authenticate cfg cur).ok = authSucceeds cfg := by
  simp only [authenticate, authSucceeds]
  split_ifs with h1 h2
  · simp [h1]
  · simp [h1, h2]
  · simp [h1, h2]

lemma authenticate_isSome (cfg : Config) (cur : Option AuthSession)
    (h : authSucceeds cfg = true) : (authenticate cfg cur).auth.isSome = true := by
  simp only [authenticate]
  split_ifs with h1 h2
  · simp
  · simp
  · simp [authSucceeds, h1, h2] at h

/-- Sleep durations recorded by a run of `r` consecutive generic-fault
iterations starting at `retry_delay = delay` (no sleep after the last
attempt). -/
def faultWaits : Nat → Nat → List Nat
  | 0, _ => []
  | 1, _ => []
  | r + 2, delay => delay :: faultWaits (r + 1) (delay * 2)

lemma getLoop_attempts_le (resp : Nat → HttpResp) :
    ∀ r idx delay, (getLoop resp r idx delay).attempts ≤ r := by
  intro r
  induction r with
  | zero => intro idx delay; simp [getLoop]
  | succ n ih =>
    intro idx delay
    have hrec := ih (idx + 1) (delay * 2)
    cases h : resp idx with
    | status code body =>
      simp only [getLoop, h]
      split_ifs <;> simp <;> omega
    | timeout =>
      simp only [getLoop, h]
      split_ifs <;> simp <;> omega
    | exc =>
      simp only [getLoop, h]
      split_ifs <;> simp <;> omega

lemma postLoop_attempts_le (cfg : Config) (resp : Nat → HttpResp) :
    ∀ r idx delay auth, ((postLoop cfg resp r idx delay auth).1).attempts ≤ r := by
  intro r
  induction r with
  | zero => intro idx delay auth; simp [postLoop]
  | succ n ih =>
    intro idx delay auth
    have hrec1 := ih (idx + 1) (delay * 2) auth
    have hrec2 := ih (idx + 2) (delay * 2) (authenticate cfg auth).auth
    cases h : resp idx with
    | status code body =>
      cases h2 : resp (idx + 1) with
      | status code2 body2 =>
        simp only [postLoop, h, h2]
        split_ifs <;> simp <;> omega
      | timeout =>
        simp only [postLoop, h, h2]
        split_ifs <;> simp <;> omega
      | exc =>
        simp only [postLoop, h, h2]
        split_ifs <;> simp <;> omega
    | timeout =>
      simp only [postLoop, h]
      split_ifs <;> simp <;> omega
    | exc =>
      simp only [postLoop, h]
      split_ifs <;> simp <;> omega

lemma getLoop_step_fault (resp : Nat → HttpResp) (r idx delay : Nat)
    (hf : isFaultGET (resp idx)) (hr : r ≠ 0) :
    getLoop resp (r + 1) idx delay =
      ⟨(getLoop resp r (idx + 1) (delay * 2)).result,
       (getLoop resp r (idx + 1) (delay * 2)).attempts + 1,
       (getLoop resp r (idx + 1) (delay * 2)).sends + 1,
       delay :: (getLoop resp r (idx + 1) (delay * 2)).waits,
       (getLoop resp r (idx + 1) (delay * 2)).reauths⟩ := by
  cases h : resp idx with
  | status code body =>
    rw [h] at hf
    obtain ⟨hc1, hc2⟩ := hf
    simp [getLoop, h, hc1, hc2, hr]
  | timeout => simp [getLoop, h, hr]
  | exc => simp [getLoop, h, hr]

lemma getLoop_last_fault (resp : Nat → HttpResp) (idx delay : Nat)
    (hf : isFaultGET (resp idx)) :
    getLoop resp 1 idx delay = ⟨none, 1, 1, [], 0⟩ := by
  cases h : resp idx with
  | status code body =>
    rw [h] at hf
    obtain ⟨hc1, hc2⟩ := hf
    simp [getLoop, h, hc1, hc2]
  | timeout => simp [getLoop, h]
  | exc => simp [getLoop, h]

lemma getLoop_allFault (resp : Nat → HttpResp) (h : ∀ i, isFaultGET (resp i)) :
    ∀ r idx delay, r ≠ 0 → getLoop resp r idx delay = ⟨none, r, r, faultWaits r delay, 0⟩ := by
  intro r
  induction r with
  | zero => intro idx delay hr; exact absurd rfl hr
  | succ n ih =>
    intro idx delay _
    cases n with
    | zero =>
      rw [getLoop_last_fault resp idx delay (h idx)]
      simp [faultWaits]
    | succ m =>
      rw [getLoop_step_fault resp (m + 1) idx delay (h idx) (Nat.succ_ne_zero m),
        ih (idx + 1) (delay * 2) (Nat.succ_ne_zero m)]
      simp [faultWaits]

lemma postLoop_step_fault (cfg : Config) (resp : Nat → HttpResp)
    (r idx delay : Nat) (auth : Option AuthSession)
    (hf : isFaultPOST (resp idx)) (hr : r ≠ 0) :
    postLoop cfg resp (r + 1) idx delay auth =
      (⟨(postLoop cfg resp r (idx + 1) (delay * 2) auth).1.result,
        (postLoop cfg resp r (idx + 1) (delay * 2) auth).1.attempts + 1,
        (postLoop cfg resp r (idx + 1) (delay * 2) auth).1.sends + 1,
        delay :: (postLoop cfg resp r (idx + 1) (delay * 2) auth).1.waits,
        (postLoop cfg resp r (idx + 1) (delay * 2) auth).1.reauths⟩,
       (postLoop cfg resp r (idx + 1) (delay * 2) auth).2) := by
  cases h : resp idx with
  | status code body =>
    rw [h] at hf
    obtain ⟨hc1, hc2, hc3⟩ := hf
    simp [postLoop, h, hc1, hc2, hc3, hr]
  | timeout => simp [postLoop, h, hr]
  | exc => simp [postLoop, h, hr]

lemma postLoop_last_fault (cfg : Config) (resp : Nat → HttpResp)
    (idx delay : Nat) (auth : Option AuthSession) (hf : isFaultPOST (resp idx)) :
    postLoop cfg resp 1 idx delay auth = (⟨none, 1, 1, [], 0⟩, auth) := by
  cases h : resp idx with
  | status code body =>
    rw [h] at hf
    obtain ⟨hc1, hc2, hc3⟩ := hf
    simp [postLoop, h, hc1, hc2, hc3]
  | timeout => simp [postLoop, h]
  | exc => simp [postLoop, h]

lemma postLoop_allFault (cfg : Config) (resp : Nat → HttpResp)
    (h : ∀ i, isFaultPOST (resp i)) :
    ∀ r idx delay auth, r ≠ 0 →
      postLoop cfg resp r idx delay auth = (⟨none, r, r, faultWaits r delay, 0⟩, auth) := by
  intro r
  induction r with
  | zero => intro idx delay auth hr; exact absurd rfl hr
  | succ n ih =>
    intro idx delay auth _
    cases n with
    | zero =>
      rw [postLoop_last_fault cfg resp idx delay auth (h idx)]
      simp [faultWaits]
    | succ m =>
      rw [postLoop_step_fault cfg resp (m + 1) idx delay auth (h idx) (Nat.succ_ne_zero m),
        ih (idx + 1) (delay * 2) auth (Nat.succ_ne_zero m)]
      simp [faultWaits]

lemma fixtureScan_eq_find (team gw : Int) : ∀ fs : List Fixture,
    fixtureScan team gw fs =
      (match List.find? (fixtureMatches team gw) fs with
       | some f => if f.team_h = some team then f.team_h_difficulty.getD 3
                   else f.team_a_difficulty.getD 3
       | none => 3) := by
  intro fs
  induction fs with
  | nil => simp [fixtureScan]
  | cons f rest ih =>
    by_cases hm : fixtureMatches team gw f = true
    · have hev : f.event = some gw := by
        simp only [fixtureMatches, Bool.and_eq_true, decide_eq_true_eq] at hm
        exact hm.1
      have hteam : f.team_h = some team ∨ f.team_a = some team := by
        simp only [fixtureMatches, Bool.and_eq_true, Bool.or_eq_true, decide_eq_true_eq] at hm
        exact hm.2
      rw [List.find?_cons_of_pos _ hm]
      by_cases hh : f.team_h = some team
      · simp [fixtureScan, hev, hh]
      · have ha : f.team_a = some team := hteam.resolve_left hh
        simp [fixtureScan, hev, hh, ha]
    · rw [List.find?_cons_of_neg _ (by simpa using hm)]
      by_cases hev : f.event = some gw
      · have hh : ¬ f.team_h = some team := by
          intro hcon
          exact hm (by simp [fixtureMatches, hev, hcon])
        have ha : ¬ f.team_a = some team := by
          intro hcon
          exact hm (by simp [fixtureMatches, hev, hcon])
        simp [fixtureScan, hev, hh, ha, ih]
      · simp [fixtureScan, hev, ih]

/-! ## Claim theorems -/

/-- C1 (counterexample): the claim says a sustained sequence of 429
responses makes `_make_request_with_retry` retry an unbounded number of
times and never return a failure indicator.  On the code, the 429 branch
ends in `continue` inside `for attempt in range(3)`, which advances
`attempt`: under a server that always answers 429, the request returns the
failure indicator `None` after exactly 3 attempts. -/
theorem rate_limit_unbounded_cex :
    (make_request_with_retry cfgNone true none .get resp429).1.result = none
    ∧ (make_request_with_retry cfgNone true none .get resp429).1.attempts = 3 :=
  ⟨rfl, rfl⟩

/-- C1 (amended): for every logical request, GET and POST alike, an HTTP
429 response causes a wait of `2 × current_delay` followed by a doubling of
the delay and a retry that does consume an attempt slot (the `continue`
advances the `for` counter), so under a sustained sequence of 429 responses
at most 3 attempts are made, the waits are 2, 4, 8 time-units, and the
request returns the failure indicator `None`. -/
theorem rate_limit_retry_bounded (cfg : Config) (auth : Option AuthSession)
    (resp : Nat → HttpResp) (h : ∀ i, resp i = HttpResp.status 429 0) :
    make_request_with_retry cfg true auth .get resp = (⟨none, 3, 3, [2, 4, 8], 0⟩, auth)
    ∧ make_request_with_retry cfg true auth .post resp = (⟨none, 3, 3, [2, 4, 8], 0⟩, auth) := by
  have hresp : resp = resp429 := funext h
  subst hresp
  exact ⟨rfl, rfl⟩

/-- C1 (witness for the amended theorem, GET and POST). -/
theorem rate_limit_retry_bounded_witness :
    make_request_with_retry cfgNone true none .get resp429 = (⟨none, 3, 3, [2, 4, 8], 0⟩, none)
    ∧ make_request_with_retry cfgNone true none .post resp429
        = (⟨none, 3, 3, [2, 4, 8], 0⟩, none) :=
  rate_limit_retry_bounded cfgNone none resp429 (fun _ => rfl)

/-- C2: any non-200 status other than 429 (and other than 401 on a write),
any timeout and any transport fault consumes one attempt slot; when a retry
follows, the current delay is waited and doubled (waits 1, 2); at most 3
attempts are ever made, and after the final attempt the function returns
the failure indicator `None` (the embedding is a total function: no
exception escapes). -/
theorem retry_fault_bounded (cfg : Config) (auth : Option AuthSession) (resp : Nat → HttpResp) :
    ((make_request_with_retry cfg true auth .get resp).1.attempts ≤ 3)
    ∧ ((make_request_with_retry cfg true auth .post resp).1.attempts ≤ 3)
    ∧ ((∀ i, isFaultGET (resp i)) →
        make_request_with_retry cfg true auth .get resp = (⟨none, 3, 3, [1, 2], 0⟩, auth))
    ∧ ((∀ i, isFaultPOST (resp i)) →
        make_request_with_retry cfg true auth .post resp = (⟨none, 3, 3, [1, 2], 0⟩, auth)) := by
  have hw : faultWaits 3 1 = [1, 2] := rfl
  refine ⟨?_, ?_, ?_, ?_⟩
  · simpa [make_request_with_retry] using getLoop_attempts_le resp 3 0 1
  · simpa [make_request_with_retry] using postLoop_attempts_le cfg resp 3 0 1 auth
  · intro h
    have hall := getLoop_allFault resp h 3 0 1 (by norm_num)
    simp [make_request_with_retry, hall, hw]
  · intro h
    have hall := postLoop_allFault cfg resp h 3 0 1 auth (by norm_num)
    simp [make_request_with_retry, hall, hw]

/-- C2 (witness): a server that times out on every send. -/
theorem retry_fault_bounded_witness :
    make_request_with_retry cfgNone true none .get respTimeout = (⟨none, 3, 3, [1, 2], 0⟩, none)
    ∧ make_request_with_retry cfgNone true none .post respTimeout
        = (⟨none, 3, 3, [1, 2], 0⟩, none) :=
  ⟨(retry_fault_bounded cfgNone none respTimeout).2.2.1 (fun _ => trivial),
   (retry_fault_bounded cfgNone none respTimeout).2.2.2 (fun _ => trivial)⟩

/-- C3: a 401 on a POST triggers exactly one re-authentication attempt; if
re-authentication succeeds the request is retried exactly once on the newly
authenticated connection (a 200 on the retry yields its body); if
re-authentication fails, or the retried request returns a non-200 status,
the operation returns the failure indicator `None` without further
retries. -/
theorem post_unauthorized_reauth (cfg : Config) (auth : Option AuthSession)
    (resp : Nat → HttpResp) (b : Nat) (h0 : resp 0 = HttpResp.status 401 b) :
    (authSucceeds cfg = false →
      make_request_with_retry cfg true auth .post resp
        = (⟨none, 1, 1, [], 1⟩, (authenticate cfg auth).auth))
    ∧ (∀ b2, authSucceeds cfg = true → resp 1 = HttpResp.status 200 b2 →
      make_request_with_retry cfg true auth .post resp
        = (⟨some b2, 1, 2, [], 1⟩, (authenticate cfg auth).auth))
    ∧ (∀ c b2, authSucceeds cfg = true → resp 1 = HttpResp.status c b2 → c ≠ 200 →
      make_request_with_retry cfg true auth .post resp
        = (⟨none, 1, 2, [], 1⟩, (authenticate cfg auth).auth)) := by
  refine ⟨?_, ?_, ?_⟩
  · intro hA
    have hok := authenticate_ok cfg auth
    rw [hA] at hok
    simp [make_request_with_retry, postLoop, h0, hok]
  · intro b2 hA h1
    have hok := authenticate_ok cfg auth
    rw [hA] at hok
    have hsome := authenticate_isSome cfg auth hA
    simp [make_request_with_retry, postLoop, h0, h1, hok, hsome]
  · intro c b2 hA h1 hc
    have hok := authenticate_ok cfg auth
    rw [hA] at hok
    have hsome := authenticate_isSome cfg auth hA
    simp [make_request_with_retry, postLoop, h0, h1, hok, hsome, hc]

/-- C3 (witness): a first send answered 401, the retried send answered 200
with body 7, under session credentials; and a 401 with no credentials at
all. -/
theorem post_unauthorized_reauth_witness :
    make_request_with_retry cfgSession true none .post resp401then200
      = (⟨some 7, 1, 2, [], 1⟩, (authenticate cfgSession none).auth)
    ∧ make_request_with_retry cfgNone true none .post resp401then200
      = (⟨none, 1, 1, [], 1⟩, (authenticate cfgNone none).auth) :=
  ⟨(post_unauthorized_reauth cfgSession none resp401then200 0 rfl).2.1 7 (by decide) rfl,
   (post_unauthorized_reauth cfgNone none resp401then200 0 rfl).1 (by decide)⟩

/-- C4: `is_player_available` is true iff the status code (defaulting to
available) is not in {i, s, u} and the chance-of-playing-next-round is
absent or ≥ 75; in particular it is true when status is absent, true when
chance-of-playing is absent, false when status is injured regardless of the
chance value, and false when chance-of-playing-next-round < 75 even with
status available. -/
theorem is_player_available_spec (p : PlayerStatus) :
    (is_player_available p = true ↔
      ((p.status.getD "a") ∉ (["i", "s", "u"] : List String)
        ∧ ∀ c, p.chance_of_playing_next_round = some c → 75 ≤ c))
    ∧ is_player_available ⟨none, some 100⟩ = true
    ∧ is_player_available ⟨some "a", none⟩ = true
    ∧ (∀ ch, is_player_available ⟨some "i", ch⟩ = false)
    ∧ (∀ c, c < 75 → is_player_available ⟨some "a", some c⟩ = false) := by
  refine ⟨?_, by decide, by decide, ?_, ?_⟩
  · obtain ⟨st, ch⟩ := p
    cases ch with
    | none => simp [is_player_available]
    | some c => simp [is_player_available]
  · intro ch
    cases ch with
    | none => decide
    | some c => simp [is_player_available]
  · intro c hc
    simp [is_player_available]
    omega

/-- C4 (witness). -/
theorem is_player_available_spec_witness :
    is_player_available ⟨some "a", some 50⟩ = false :=
  (is_player_available_spec ⟨some "a", some 50⟩).2.2.2.2 50 (by norm_num)

/-- C5: `calculate_player_value` returns `expected_points / (price / 10)`,
a price of 0 yields 0 without a division fault, and price 50 with expected
points 10 yields exactly 2. -/
theorem calculate_player_value_spec (price ep : ℚ) :
    calculate_player_value 0 ep = 0
    ∧ (price ≠ 0 → calculate_player_value price ep = ep / (price / 10))
    ∧ calculate_player_value 50 10 = 2 := by
  refine ⟨by simp [calculate_player_value], ?_, by norm_num [calculate_player_value]⟩
  intro h
  simp [calculate_player_value, h]

/-- C5 (witness). -/
theorem calculate_player_value_spec_witness :
    calculate_player_value 50 10 = 10 / ((50 : ℚ) / 10) :=
  (calculate_player_value_spec 50 10).2.1 (by norm_num)

/-- C6: with an untrained predictor (or a non-finite prediction) the
expected points are the average of the most recent 3 recorded total-points
values (0 for an empty history) times the difficulty multiplier, difficulty
3 maps to 1.2, and history [5, 7, 3] at difficulty 3 yields exactly 6. -/
theorem calculate_expected_points_spec (history : List ℚ) (d : Int) :
    calculate_expected_points none history d
      = recent_average history * difficulty_multiplier d
    ∧ difficulty_multiplier 3 = 12 / 10
    ∧ calculate_expected_points none [5, 7, 3] 3 = 6
    ∧ calculate_expected_points none [] d = 0 := by
  refine ⟨rfl, rfl, ?_, ?_⟩
  · norm_num [calculate_expected_points, recent_average, difficulty_multiplier,
      List.cons_ne_nil]
  · simp [calculate_expected_points, recent_average]

/-- C7: `get_fixture_difficulty` returns the home-side difficulty when the
team is the home side of the first matching fixture of that gameweek, the
away-side difficulty when it is the away side, and exactly 3 when no
fixture matches the team/gameweek pair — including when the fixture list
could not be fetched. -/
theorem get_fixture_difficulty_spec (team gw : Int) :
    get_fixture_difficulty none team gw = 3
    ∧ (∀ fs f, List.find? (fixtureMatches team gw) fs = some f →
        get_fixture_difficulty (some fs) team gw =
          (if f.team_h = some team then f.team_h_difficulty.getD 3
           else f.team_a_difficulty.getD 3))
    ∧ (∀ fs, List.find? (fixtureMatches team gw) fs = none →
        get_fixture_difficulty (some fs) team gw = 3) := by
  refine ⟨rfl, ?_, ?_⟩
  · intro fs f hf
    simp [get_fixture_difficulty, fixtureScan_eq_find, hf]
  · intro fs hf
    simp [get_fixture_difficulty, fixtureScan_eq_find, hf]

/-- C7 (witness): the fixture list of the repository's own test. -/
theorem get_fixture_difficulty_spec_witness :
    get_fixture_difficulty (some testFixtures) 1 1 = 2
    ∧ get_fixture_difficulty (some testFixtures) 2 1 = 4
    ∧ get_fixture_difficulty (some testFixtures) 5 1 = 3 := by
  refine ⟨?_, ?_, ?_⟩
  · have h := (get_fixture_difficulty_spec 1 1).2.1 testFixtures
      ⟨some 1, some 1, some 2, some 2, some 4⟩ (by decide)
    simpa using h
  · have h := (get_fixture_difficulty_spec 2 1).2.1 testFixtures
      ⟨some 1, some 1, some 2, some 2, some 4⟩ (by decide)
    simpa using h
  · exact (get_fixture_difficulty_spec 5 1).2.2 testFixtures (by decide)

/-- C8: recording a transfer adds and commits exactly one record; a store
fault during add triggers exactly one rollback, no commit happens, and the
function returns normally in every case. -/
theorem record_transfer_spec :
    record_transfer false false = ([.add, .commit], true)
    ∧ (∀ c, record_transfer true c = ([.rollback], true))
    ∧ (∀ a c, (record_transfer a c).2 = true
        ∧ (record_transfer a c).1.count .rollback ≤ 1
        ∧ (record_transfer a c).1.count .commit ≤ 1)
    ∧ (∀ c, (record_transfer true c).1.count .commit = 0) := by
  refine ⟨rfl, fun c => rfl, ?_, fun c => rfl⟩
  intro a c
  cases a <;> cases c <;> exact ⟨rfl, by decide, by decide⟩

/-- C9: `_authenticate` conforms to the authentication state machine: any
existing authenticated connection is closed; with session-id + CSRF token
configured the session-authenticated state is entered (cookie, CSRF and
Referer headers attached) regardless of username/password; with only
username/password the credential-authenticated state is entered; with no
credentials the call reports failure, no open authenticated connection
remains, and a previously unauthenticated client stays unauthenticated. -/
theorem authenticate_state_machine (cfg : Config) (cur : Option AuthSession) :
    ((authenticate cfg cur).closedOld = cur.isSome)
    ∧ (hasSessionCreds cfg = true →
        authenticate cfg cur = ⟨true, some (sessionAuthSession cfg), cur.isSome⟩)
    ∧ (hasSessionCreds cfg = false → hasUserCreds cfg = true →
        authenticate cfg cur = ⟨true, some credAuthSession, cur.isSome⟩)
    ∧ (hasSessionCreds cfg = false → hasUserCreds cfg = false →
        (authenticate cfg cur).ok = false
        ∧ isAuthOpen (authenticate cfg cur).auth = false
        ∧ (cur = none → (authenticate cfg cur).auth = none)) := by
  refine ⟨?_, ?_, ?_, ?_⟩
  · simp only [authenticate]
    split_ifs <;> rfl
  · intro h
    simp [authenticate, h]
  · intro h1 h2
    simp [authenticate, h1, h2]
  · intro h1 h2
    refine ⟨by simp [authenticate, h1, h2], ?_, ?_⟩
    · cases cur with
      | none => simp [authenticate, h1, h2, isAuthOpen]
      | some s => simp [authenticate, h1, h2, isAuthOpen]
    · intro hcur
      subst hcur
      simp [authenticate, h1, h2]

/-- C9 (witness): both credential pairs configured (session auth wins),
only traditional credentials, and no credentials. -/
theorem authenticate_state_machine_witness :
    authenticate cfgBoth none = ⟨true, some (sessionAuthSession cfgBoth), false⟩
    ∧ authenticate cfgUser none = ⟨true, some credAuthSession, false⟩
    ∧ (authenticate cfgNone none).ok = false
    ∧ (authenticate cfgNone none).auth = none :=
  ⟨(authenticate_state_machine cfgBoth none).2.1 (by decide),
   (authenticate_state_machine cfgUser none).2.2.1 (by decide) (by decide),
   ((authenticate_state_machine cfgNone none).2.2.2 (by decide) (by decide)).1,
   ((authenticate_state_machine cfgNone none).2.2.2 (by decide) (by decide)).2.2 rfl⟩

/-- C10: for every input stats dictionary, every opponent difficulty and
every model state (untrained, trained, raising, or returning a non-finite
value), `predict_performance` returns a non-negative value: every return
path is clamped with `max(0, ·)`. -/
theorem predict_performance_nonneg (t : Bool) (model : List PyFloat → Except Unit PyFloat)
    (stats : String → Option PyFloat) (d : PyFloat) :
    (predict_performance t model stats d).nonneg := by
  simp only [predict_performance]
  split_ifs with h1 h2
  · exact pymax0_nonneg _
  · exact pymax0_nonneg _
  · cases hm : model (predictFeatures stats d) with
    | ok p =>
      simp only [hm]
      exact pymax0_nonneg _
    | error e =>
      simp only [hm]
      exact pymax0_nonneg _

end FPLGenBot
